import Mathlib

/-!
Shallow embedding of the `edu-dashboard` Streamlit application (`src/app.py`).

The app loads a wide-format CSV (identity columns plus 4-digit year columns),
melts it to a long-form canonical table, coerces values to numerics, flags
missingness, filters by country / indicator / year range, and renders linked
Altair charts plus KPI tiles.  The embedding below models:

* the raw CSV as a `RawTable` (column names plus rows of optional string cells;
  an absent cell is `none`, mirroring a NaN cell in pandas);
* `pd.to_numeric(..., errors="coerce")` as a total decimal-token parser
  returning `Option Rat` (`none` = NaN);
* `load_edstats` (year-column detection, 1970–2015 restriction, ascending sort,
  required-column check, melt, coercions, `Missing` flag, dropping rows whose
  Year failed to coerce) as `load_edstats : RawTable → Except (List String) (List Record)`,
  where the `Except.error` payload is the list of missing required columns that
  the raised `ValueError` message carries;
* the sidebar filter expression, the default country / indicator selection,
  the KPI arithmetic, and the missing-rate chart (data versus brush-driven
  opacity) as the corresponding pure functions.
-/

namespace EduDash

/-- Fold a list of decimal digit characters into a natural number, as Python's
`int` does on a digit string. -/
def digitsToNat (cs : List Char) : Nat :=
  cs.foldl (fun a c => a * 10 + (c.toNat - 48)) 0

/-- `re.fullmatch(r"\d{4}", str(c))`: the string is exactly four digit
characters. -/
def isFourDigit (s : String) : Bool :=
  (s.data.length == 4) && s.data.all Char.isDigit

/-- Python `int` on a digit string (used for `int(c)` on detected year
columns). -/
def strToNat (s : String) : Nat := digitsToNat s.data

/-- Parser for an unsigned decimal token: digits, optionally with a single
decimal point (`"12"`, `"12.5"`, `".5"`, `"12."`).  Anything else — in
particular the `".."` not-available sentinel — is not numeric.  This models
pandas' numeric coercion on the token after an optional sign. -/
def parseUnsigned (cs : List Char) : Option Rat :=
  let ip := cs.takeWhile (fun c => !(c == '.'))
  match cs.dropWhile (fun c => !(c == '.')) with
  | [] =>
      if !ip.isEmpty && ip.all Char.isDigit then
        some ((digitsToNat ip : Nat) : Rat)
      else none
  | _ :: fp =>
      if (!ip.isEmpty || !fp.isEmpty) && ip.all Char.isDigit && fp.all Char.isDigit
          && fp.all (fun c => !(c == '.')) then
        some (((digitsToNat ip : Nat) : Rat) + ((digitsToNat fp : Nat) : Rat) / ((10 : Rat) ^ fp.length))
      else none

/-- `pd.to_numeric(token, errors="coerce")` on a single string token: an
optional sign followed by an unsigned decimal; a non-numeric token coerces to
`none` (NaN) instead of raising. -/
def parseDecimal (s : String) : Option Rat :=
  match s.data with
  | [] => none
  | c :: rest =>
      if c = '-' then (parseUnsigned rest).map (fun q => -q)
      else if c = '+' then parseUnsigned rest
      else parseUnsigned (c :: rest)

/-- `pd.to_numeric` over a cell that may already be absent: NaN stays NaN. -/
def toNumericCell (cell : Option String) : Option Rat :=
  cell.bind parseDecimal

/-- `.astype("Int64")` on a coerced year: an exact integer survives, anything
else is treated as unavailable. -/
def yearToInt (q : Option Rat) : Option Int :=
  q.bind (fun r => if r.den = 1 then some r.num else none)

/-- A raw wide-form table as parsed by `pd.read_csv`: the column names in
order, and rows of cells aligned with the columns (`none` = NaN cell). -/
structure RawTable where
  columns : List String
  rows : List (List (Option String))

/-- Look a cell up by column name in a row (pandas label-based access). -/
def getCell (cols : List String) (row : List (Option String)) (c : String) : Option String :=
  match cols.findIdx? (fun x => x == c) with
  | some i => (row.get? i).getD none
  | none => none

/-- The four required identity columns of `load_edstats`. -/
def requiredCols : List String :=
  ["Country Name", "Country Code", "Indicator Name", "Indicator Code"]

/-- `[c for c in required_cols if c not in df.columns]`. -/
def missingRequired (cols : List String) : List String :=
  requiredCols.filter (fun c => !(cols.contains c))

/-- Stable insertion of a year-column name into a list sorted ascending by
`int(c)`. -/
def insertByYear (x : String) : List String → List String
  | [] => [x]
  | y :: ys => if strToNat x ≤ strToNat y then x :: y :: ys else y :: insertByYear x ys

/-- `sorted(year_cols, key=lambda x: int(x))` — a stable ascending sort by
numeric year. -/
def sortByYear : List String → List String
  | [] => []
  | x :: xs => insertByYear x (sortByYear xs)

/-- Year-column detection of `load_edstats`: keep 4-digit column names, then
keep only those with `1970 <= int(c) <= 2015`, then sort ascending by year. -/
def year_cols (cols : List String) : List String :=
  sortByYear ((cols.filter isFourDigit).filter
    (fun c => decide (1970 ≤ strToNat c) && decide (strToNat c ≤ 2015)))

/-- One row of the canonical long-form table: identity fields (nullable, as in
the source rows), the coerced `Year`, the coerced `Value`, and the `Missing`
flag. -/
structure Record where
  countryName : Option String
  countryCode : Option String
  indicatorName : Option String
  indicatorCode : Option String
  year : Int
  value : Option Rat
  missing : Bool
deriving DecidableEq, Repr

/-- A melted row before the `dropna(subset=["Year"])` safety step: the `Year`
column may still have failed numeric coercion. -/
structure PreRecord where
  countryName : Option String
  countryCode : Option String
  indicatorName : Option String
  indicatorCode : Option String
  yearRaw : Option Int
  value : Option Rat
  missing : Bool
deriving DecidableEq, Repr

/-- One melted row for a given source row and year column: identity fields are
carried over, `Year` is the year-column name coerced to numeric then `Int64`,
`Value` is the cell coerced to numeric, and `Missing` is `Value.isna()`. -/
def mkPre (cols : List String) (yc : String) (row : List (Option String)) : PreRecord :=
  { countryName := getCell cols row "Country Name"
    countryCode := getCell cols row "Country Code"
    indicatorName := getCell cols row "Indicator Name"
    indicatorCode := getCell cols row "Indicator Code"
    yearRaw := yearToInt (parseDecimal yc)
    value := toNumericCell (getCell cols row yc)
    missing := (toNumericCell (getCell cols row yc)).isNone }

/-- `df[required_cols + year_cols].melt(...)`: pandas stacks the value
variables in order, all rows for the first year column, then all rows for the
second, and so on. -/
def meltPre (t : RawTable) (ycs : List String) : List PreRecord :=
  ycs.flatMap (fun yc => t.rows.map (mkPre t.columns yc))

/-- `dropna(subset=["Year"])` followed by `astype(int)`: keep the row only if
its `Year` coerced. -/
def finalize (p : PreRecord) : Option Record :=
  p.yearRaw.map (fun y =>
    { countryName := p.countryName
      countryCode := p.countryCode
      indicatorName := p.indicatorName
      indicatorCode := p.indicatorCode
      year := y
      value := p.value
      missing := p.missing })

/-- The canonical long-form table built by the body of `load_edstats` once the
schema check has passed. -/
def canonRecords (t : RawTable) : List Record :=
  (meltPre t (year_cols t.columns)).filterMap finalize

/-- `load_edstats`: detect and restrict year columns, check the required
identity columns (raising `ValueError` naming the missing ones — modelled as
the `Except.error` payload), melt wide to long, coerce, flag missingness, and
drop rows without a parseable year. -/
def load_edstats (t : RawTable) : Except (List String) (List Record) :=
  match missingRequired t.columns with
  | [] => .ok (canonRecords t)
  | ms => .error ms

/-- The sidebar filter expression:
`(Country Name == country) & (Indicator Name == indicator) & Year.between(lo, hi)`.
A NaN identity cell compares unequal to any string, and `between` is
inclusive. -/
def filterPred (country indicator : String) (lo hi : Int) (r : Record) : Bool :=
  (r.countryName == some country) && (r.indicatorName == some indicator)
    && decide (lo ≤ r.year) && decide (r.year ≤ hi)

/-- `data[(Country Name == country) & (Indicator Name == indicator) & Year.between(lo, hi)]`. -/
def filterView (tbl : List Record) (country indicator : String) (lo hi : Int) : List Record :=
  tbl.filter (filterPred country indicator lo hi)

/-- Lexicographic comparison of character lists by code point, as Python
compares strings. -/
def lexLe : List Char → List Char → Bool
  | [], _ => true
  | _ :: _, [] => false
  | a :: as, b :: bs => if a = b then lexLe as bs else decide (a.toNat < b.toNat)

/-- Python string `<=` (code-point lexicographic). -/
def strLe (a b : String) : Bool := lexLe a.data b.data

/-- Stable insertion for the string sort. -/
def insertStr (x : String) : List String → List String
  | [] => [x]
  | y :: ys => if strLe x y then x :: y :: ys else y :: insertStr x ys

/-- Python `sorted` on a list of strings. -/
def sortStr : List String → List String
  | [] => []
  | x :: xs => insertStr x (sortStr xs)

/-- `pandas.Series.unique`: distinct values in order of first appearance. -/
def dedupAux : List String → List String → List String
  | _, [] => []
  | seen, x :: xs =>
      if seen.contains x then dedupAux seen xs else x :: dedupAux (x :: seen) xs

/-- `series.dropna().unique().tolist()` then `sorted(...)`. -/
def sortedDistinct (l : List String) : List String := sortStr (dedupAux [] l)

/-- `sorted(data["Country Name"].dropna().unique().tolist())`. -/
def countriesOf (data : List Record) : List String :=
  sortedDistinct (data.filterMap (fun r => r.countryName))

/-- `"Arab World" if "Arab World" in countries else countries[0]` (indexing an
empty list would raise, hence `Option`). -/
def defaultCountry (data : List Record) : Option String :=
  let cs := countriesOf data
  if cs.contains "Arab World" then some "Arab World" else cs.head?

/-- `sorted(data.loc[data["Country Name"] == country, "Indicator Name"].dropna().unique().tolist())`. -/
def indicatorsFor (data : List Record) (country : String) : List String :=
  sortedDistinct ((data.filter (fun r => r.countryName == some country)).filterMap
    (fun r => r.indicatorName))

/-- The preference list the app scans for a default indicator, in priority
order. -/
def preferredIndicators : List String :=
  ["School enrollment, primary, female (% gross)",
   "School enrollment, primary, female (% net)",
   "Adjusted net enrolment rate, primary, female (%)"]

/-- The `for candidate in [...]: if candidate in ind_for_country: break` scan:
the first preferred name present in the country's indicator domain, else
`None`. -/
def defaultIndicator (inds : List String) : Option String :=
  preferredIndicators.find? (fun c => inds.contains c)

/-- `ind_for_country.index(default_indicator) if default_indicator in ind_for_country else 0`. -/
def indicatorIndex (inds : List String) : Nat :=
  match defaultIndicator inds with
  | some d => inds.indexOf d
  | none => 0

/-- The indicator the selectbox is initialised with: the option at the default
index. -/
def chosenIndicator (inds : List String) : Option String :=
  inds.get? (indicatorIndex inds)

/-- `total_years = (year_max - year_min + 1)`. -/
def total_years (lo hi : Int) : Int := hi - lo + 1

/-- `non_missing = df.loc[~df["Missing"]].shape[0]`. -/
def non_missing (df : List Record) : Nat :=
  (df.filter (fun r => !r.missing)).length

/-- The "Missing points" KPI value `total_years - non_missing`. -/
def missing_points (lo hi : Int) (df : List Record) : Int :=
  total_years lo hi - (non_missing df : Int)

/-- The coverage percentage `(non_missing/total_years)*100`. -/
def coveragePct (lo hi : Int) (df : List Record) : Rat :=
  ((non_missing df : Rat) / ((total_years lo hi : Int) : Rat)) * 100

/-- The missing percentage `((total_years-non_missing)/total_years)*100`. -/
def missingPct (lo hi : Int) (df : List Record) : Rat :=
  (((missing_points lo hi df : Int) : Rat) / ((total_years lo hi : Int) : Rat)) * 100

/-- `df["Missing"].astype(int)`. -/
def missingInt (r : Record) : Nat := if r.missing then 1 else 0

/-- Distinct values in order of first appearance (the grouping keys of the
`mean(MissingInt)` aggregation). -/
def dedupInts : List Int → List Int → List Int
  | _, [] => []
  | seen, x :: xs =>
      if seen.contains x then dedupInts seen xs else x :: dedupInts (x :: seen) xs

/-- The distinct years of the filtered view. -/
def yearsOf (df : List Record) : List Int := dedupInts [] (df.map (fun r => r.year))

/-- The missing-rate view's aggregated data: for each year of the filtered
view, the mean of the 0/1 missing indicator over that year's records. -/
def missingRateData (df : List Record) : List (Int × Rat) :=
  (yearsOf df).map (fun y =>
    (y, (((df.filter (fun r => r.year == y)).map (fun r => (missingInt r : Rat))).sum
          / ((df.filter (fun r => r.year == y)).length : Rat))))

/-- A rendered missing-rate chart: its aggregated bar data and the per-bar
opacity encoding. -/
structure MissingRateChart where
  data : List (Int × Rat)
  opacity : Int → Rat

/-- `alt.condition(brush, alt.value(1.0), alt.value(0.25))` over the year
axis: full opacity inside the brushed interval (or when no brush is active),
dimmed outside. -/
def barOpacity (brush : Option (Int × Int)) (y : Int) : Rat :=
  match brush with
  | none => 1
  | some (lo, hi) => if lo ≤ y ∧ y ≤ hi then 1 else 1 / 4

/-- The missing-rate chart: bars aggregate the full filtered view; the brush
state enters only the opacity encoding. -/
def missing_rate (df : List Record) (brush : Option (Int × Int)) : MissingRateChart :=
  { data := missingRateData df, opacity := barOpacity brush }

/-- The page outcome: either the top-level `except` branch (`st.error` with
the exception's details followed by `st.stop()`), or the dashboard with its
charts and KPI values. -/
inductive AppOutcome where
  | errorScreen (details : List String)
  | dashboard (missingRateChart : MissingRateChart) (kpis : Int × Nat × Int)

/-- The top-level script: load (halting on failure before any chart is
built), filter, then build charts and KPIs. -/
def run_app (t : RawTable) (country indicator : String) (lo hi : Int)
    (brush : Option (Int × Int)) : AppOutcome :=
  match load_edstats t with
  | .error ms => .errorScreen ms
  | .ok data =>
      let df := filterView data country indicator lo hi
      .dashboard (missing_rate df brush)
        (total_years lo hi, non_missing df, missing_points lo hi df)

/-- The canonical record that the melt emits for a given source row and
in-bound year column (the closed form of `finalize ∘ mkPre` when the year
column name parses). -/
def recordOf (cols : List String) (yc : String) (row : List (Option String)) : Record :=
  { countryName := getCell cols row "Country Name"
    countryCode := getCell cols row "Country Code"
    indicatorName := getCell cols row "Indicator Name"
    indicatorCode := getCell cols row "Indicator Code"
    year := (strToNat yc : Int)
    value := toNumericCell (getCell cols row yc)
    missing := (toNumericCell (getCell cols row yc)).isNone }

/-- A small concrete source table: two rows, two in-bound year columns, one
numeric cell, one `".."` sentinel cell, one absent cell. -/
def exTable : RawTable :=
  { columns := ["Country Name", "Country Code", "Indicator Name", "Indicator Code", "1970", "1971"]
    rows := [[some "Arab World", some "ARB", some "Ind A", some "IA", some "1.5", some ".."],
             [some "Brazil", some "BRA", some "Ind A", some "IA", none, some "7"]] }

/-- The last canonical record of `exTable` (Brazil, 1971, value 7). -/
def exRec : Record :=
  { countryName := some "Brazil"
    countryCode := some "BRA"
    indicatorName := some "Ind A"
    indicatorCode := some "IA"
    year := 1971
    value := some 7
    missing := false }

/-- A source table lacking two of the four required identity columns. -/
def badTable : RawTable :=
  { columns := ["Country Name", "Indicator Name", "1970"]
    rows := [[some "Brazil", some "Ind A", some "4"]] }

/-- A small canonical table used to exercise the default-selection policy. -/
def exData : List Record :=
  [{ countryName := some "Arab World", countryCode := some "ARB",
     indicatorName := some "School enrollment, primary, female (% gross)",
     indicatorCode := some "IC1", year := 1970, value := some 10, missing := false },
   { countryName := some "Arab World", countryCode := some "ARB",
     indicatorName := some "Literacy rate", indicatorCode := some "IC2",
     year := 1971, value := none, missing := true },
   { countryName := some "Brazil", countryCode := some "BRA",
     indicatorName := some "Literacy rate", indicatorCode := some "IC2",
     year := 1970, value := some 5, missing := false }]

lemma takeWhile_of_all_digits {cs : List Char} (h : cs.all Char.isDigit = true) :
    cs.takeWhile (fun c => !(c == '.')) = cs := by
  induction cs with
  | nil => rfl
  | cons c cs ih =>
      simp only [List.all_cons, Bool.and_eq_true] at h
      have hc : (c == '.') = false := by
        rcases h with ⟨h1, _⟩
        by_contra hne
        have : c = '.' := by
          have := eq_of_beq (a := c) (b := '.') (by
            cases hcc : (c == '.') with
            | true => rfl
            | false => exact absurd hcc hne)
          exact this
        rw [this] at h1
        exact absurd h1 (by decide)
      simp [List.takeWhile_cons, hc, ih h.2]

lemma dropWhile_of_all_digits {cs : List Char} (h : cs.all Char.isDigit = true) :
    cs.dropWhile (fun c => !(c == '.')) = [] := by
  induction cs with
  | nil => rfl
  | cons c cs ih =>
      simp only [List.all_cons, Bool.and_eq_true] at h
      have hc : (c == '.') = false := by
        rcases h with ⟨h1, _⟩
        by_contra hne
        have : c = '.' := eq_of_beq (by
          cases hcc : (c == '.') with
          | true => rfl
          | false => exact absurd hcc hne)
        rw [this] at h1
        exact absurd h1 (by decide)
      simp [List.dropWhile_cons, hc, ih h.2]

lemma parseUnsigned_digits {cs : List Char} (hne : cs ≠ []) (h : cs.all Char.isDigit = true) :
    parseUnsigned cs = some ((digitsToNat cs : Nat) : Rat) := by
  unfold parseUnsigned
  rw [dropWhile_of_all_digits h, takeWhile_of_all_digits h]
  simp [hne, h]

lemma parseDecimal_digits {cs : List Char} (hne : cs ≠ []) (h : cs.all Char.isDigit = true) :
    parseDecimal (String.mk cs) = some ((digitsToNat cs : Nat) : Rat) := by
  cases cs with
  | nil => exact absurd rfl hne
  | cons c rest =>
      simp only [List.all_cons, Bool.and_eq_true] at h
      have hminus : ¬ c = '-' := by
        intro hc; rw [hc] at h; exact absurd h.1 (by decide)
      have hplus : ¬ c = '+' := by
        intro hc; rw [hc] at h; exact absurd h.1 (by decide)
      show parseDecimal ⟨c :: rest⟩ = _
      unfold parseDecimal
      simp only [hminus, hplus, if_false]
      exact parseUnsigned_digits (by simp) (by simp [h.1, h.2])

lemma parseDecimal_fourDigit {s : String} (h : isFourDigit s = true) :
    parseDecimal s = some ((strToNat s : Nat) : Rat) := by
  have hd : s.data.all Char.isDigit = true := by
    unfold isFourDigit at h
    exact (Bool.and_eq_true _ _ |>.mp h).2
  have hne : s.data ≠ [] := by
    unfold isFourDigit at h
    have hlen := (Bool.and_eq_true _ _ |>.mp h).1
    intro hnil
    rw [hnil] at hlen
    exact absurd hlen (by decide)
  have : parseDecimal (String.mk s.data) = some ((digitsToNat s.data : Nat) : Rat) :=
    parseDecimal_digits hne hd
  cases s
  exact this

lemma yearToInt_fourDigit {s : String} (h : isFourDigit s = true) :
    yearToInt (parseDecimal s) = some ((strToNat s : Nat) : Int) := by
  rw [parseDecimal_fourDigit h]
  unfold yearToInt
  simp [Rat.den_natCast, Rat.num_natCast]

lemma finalize_mkPre {cols : List String} {yc : String} {row : List (Option String)}
    (h : isFourDigit yc = true) :
    finalize (mkPre cols yc row) = some (recordOf cols yc row) := by
  unfold finalize mkPre recordOf
  simp only [yearToInt_fourDigit h, Option.map_some']

lemma mem_insertByYear {a x : String} {l : List String} :
    a ∈ insertByYear x l ↔ a = x ∨ a ∈ l := by
  induction l with
  | nil => simp [insertByYear]
  | cons y ys ih =>
      unfold insertByYear
      by_cases hle : strToNat x ≤ strToNat y
      · simp [hle]
      · simp only [hle, if_false, List.mem_cons, ih]
        tauto

lemma mem_sortByYear {a : String} {l : List String} :
    a ∈ sortByYear l ↔ a ∈ l := by
  induction l with
  | nil => simp [sortByYear]
  | cons x xs ih =>
      unfold sortByYear
      rw [mem_insertByYear, ih]
      simp

lemma year_cols_spec {cols : List String} {c : String} (h : c ∈ year_cols cols) :
    c ∈ cols ∧ isFourDigit c = true ∧ 1970 ≤ strToNat c ∧ strToNat c ≤ 2015 := by
  unfold year_cols at h
  rw [mem_sortByYear] at h
  simp only [List.mem_filter, Bool.and_eq_true, decide_eq_true_iff] at h
  exact ⟨h.1.1, h.1.2, h.2.1, h.2.2⟩

lemma filterMap_eq_map_of_mem {α β : Type _} {l : List α} {f : α → Option β} {g : α → β}
    (h : ∀ a ∈ l, f a = some (g a)) : l.filterMap f = l.map g := by
  induction l with
  | nil => rfl
  | cons a l ih =>
      rw [List.filterMap_cons, h a (by simp), List.map_cons,
        ih (fun a ha => h a (by simp [ha]))]

lemma flatMap_congr_mem {α β : Type _} {l : List α} {f g : α → List β}
    (h : ∀ a ∈ l, f a = g a) : l.flatMap f = l.flatMap g := by
  induction l with
  | nil => rfl
  | cons a l ih =>
      simp only [List.flatMap_cons]
      rw [h a (by simp), ih (fun a ha => h a (by simp [ha]))]

lemma canonRecords_eq (t : RawTable) :
    canonRecords t = (year_cols t.columns).flatMap (fun yc => t.rows.map (recordOf t.columns yc)) := by
  unfold canonRecords meltPre
  rw [List.filterMap_flatMap]
  refine flatMap_congr_mem (fun yc hyc => ?_)
  have h4 : isFourDigit yc = true := (year_cols_spec hyc).2.1
  rw [List.filterMap_map]
  exact filterMap_eq_map_of_mem (fun row _ => finalize_mkPre h4)

lemma mem_canonRecords {t : RawTable} {r : Record} :
    r ∈ canonRecords t ↔
      ∃ yc ∈ year_cols t.columns, ∃ row ∈ t.rows, recordOf t.columns yc row = r := by
  rw [canonRecords_eq]
  simp [List.mem_flatMap, List.mem_map]

lemma load_edstats_ok {t : RawTable} {recs : List Record}
    (h : load_edstats t = .ok recs) : recs = canonRecords t := by
  unfold load_edstats at h
  cases hm : missingRequired t.columns with
  | nil => rw [hm] at h; exact (Except.ok.injEq _ _ |>.mp h).symm
  | cons m ms => rw [hm] at h; exact absurd h (by simp)

lemma sum_map_const {α : Type _} (l : List α) (n : Nat) :
    (l.map (fun _ => n)).sum = l.length * n := by
  induction l with
  | nil => simp
  | cons a l ih => simp [ih, Nat.succ_mul, Nat.add_comm]

lemma sum_map_eq_countP {α : Type _} {l : List α} {f : α → Nat} {q : α → Bool}
    (h0 : ∀ a ∈ l, q a = false → f a = 0) (h1 : ∀ a ∈ l, q a = true → f a = 1) :
    (l.map f).sum = l.countP q := by
  induction l with
  | nil => rfl
  | cons a l ih =>
      rw [List.map_cons, List.sum_cons, List.countP_cons,
        ih (fun a ha => h0 a (by simp [ha])) (fun a ha => h1 a (by simp [ha]))]
      cases hq : q a with
      | false => simp [hq, h0 a (by simp) hq]
      | true => simp [hq, h1 a (by simp) hq, Nat.add_comm]

/-- **C1.** For every record of the canonical long-form table produced by
`load_edstats`, the `Missing` flag is true if and only if the `Value` field is
null: no record has both a numeric `Value` and `Missing = true`, and no record
has a null `Value` with `Missing = false`. -/
theorem spec_C1_missing_iff_value_null (t : RawTable) (recs : List Record)
    (h : load_edstats t = .ok recs) :
    ∀ r ∈ recs, (r.missing = true ↔ r.value = none) := by
  intro r hr
  rw [load_edstats_ok h] at hr
  rcases mem_canonRecords.mp hr with ⟨yc, _, row, _, hrec⟩
  subst hrec
  show ((toNumericCell (getCell t.columns row yc)).isNone = true ↔
    toNumericCell (getCell t.columns row yc) = none)
  exact Option.isNone_iff_eq_none

/-- Witness for C1: `load_edstats` on `exTable` succeeds and its first record
(numeric value `1.5`) satisfies the invariant. -/
theorem spec_C1_witness : exRec.missing = true ↔ exRec.value = none :=
  spec_C1_missing_iff_value_null exTable (canonRecords exTable) rfl exRec (by decide)

/-- **C2.** No canonical record produced by `load_edstats` has `Year < 1970`
or `Year > 2015`, for every input table, even when the source contains year
columns outside that bound; and on a source with columns
`1968,1969,1970,1971,2015,2016`, exactly `1970`, `1971` and `2015` survive as
year columns. -/
theorem spec_C2_year_bounds :
    (∀ (t : RawTable) (recs : List Record), load_edstats t = .ok recs →
        ∀ r ∈ recs, 1970 ≤ r.year ∧ r.year ≤ 2015)
    ∧ year_cols ["1968", "1969", "1970", "1971", "2015", "2016"] = ["1970", "1971", "2015"] := by
  constructor
  · intro t recs h r hr
    rw [load_edstats_ok h] at hr
    rcases mem_canonRecords.mp hr with ⟨yc, hyc, row, _, hrec⟩
    subst hrec
    have hb := year_cols_spec hyc
    show 1970 ≤ (strToNat yc : Int) ∧ (strToNat yc : Int) ≤ 2015
    exact ⟨by exact_mod_cast hb.2.2.1, by exact_mod_cast hb.2.2.2⟩
  · decide

/-- Witness for C2: the bound holds at the first record of `exTable`. -/
theorem spec_C2_witness : 1970 ≤ exRec.year ∧ exRec.year ≤ 2015 :=
  spec_C2_year_bounds.1 exTable (canonRecords exTable) rfl exRec (by decide)

/-- **C4.** Value coercion is total and silent: whenever the schema check
passes, `load_edstats` returns a table (coercion failures never abort the
load) in which every record's `Missing` flag is exactly "the coerced `Value`
is absent"; the two-character `".."` sentinel coerces to absent; and a numeric
token coerces to its numeric value. -/
theorem spec_C4_silent_value_coercion :
    (∀ t : RawTable, missingRequired t.columns = [] →
        load_edstats t = .ok (canonRecords t)
        ∧ ∀ r ∈ canonRecords t, r.missing = r.value.isNone)
    ∧ parseDecimal ".." = none
    ∧ toNumericCell (some "..") = none
    ∧ ∀ cs : List Char, cs ≠ [] → cs.all Char.isDigit = true →
        parseDecimal (String.mk cs) = some ((digitsToNat cs : Nat) : Rat) := by
  refine ⟨fun t h => ⟨?_, ?_⟩, by decide, by decide, fun cs h1 h2 => parseDecimal_digits h1 h2⟩
  · unfold load_edstats
    rw [h]
  · intro r hr
    rcases mem_canonRecords.mp hr with ⟨yc, _, row, _, hrec⟩
    subst hrec
    rfl

/-- Witness for C4: the schema check passes on `exTable`, so the load
succeeds; a digit token evaluates to its value. -/
theorem spec_C4_witness :
    (load_edstats exTable = .ok (canonRecords exTable)
      ∧ ∀ r ∈ canonRecords exTable, r.missing = r.value.isNone)
    ∧ parseDecimal (String.mk ['7']) = some ((digitsToNat ['7'] : Nat) : Rat) :=
  ⟨spec_C4_silent_value_coercion.1 exTable rfl,
   spec_C4_silent_value_coercion.2.2.2 ['7'] (by decide) (by decide)⟩

/-- **C3.** The canonical table has one record per (source row, in-bound year
column) pair: its length is the number of source rows times the number of
in-bound year columns (no rows are dropped, since detected year columns always
parse); and whenever exactly one source row carries a given
(Country Name, Indicator Name) identity and a year value occurs exactly once
among the in-bound year columns, exactly one canonical record carries that
(Country Name, Indicator Name, Year) triple. -/
theorem spec_C3_one_record_per_row_and_year (t : RawTable) (recs : List Record)
    (h : load_edstats t = .ok recs) :
    recs.length = t.rows.length * (year_cols t.columns).length
    ∧ ∀ (cn ind : Option String) (y : Int),
        t.rows.countP (fun row =>
          (getCell t.columns row "Country Name" == cn)
            && (getCell t.columns row "Indicator Name" == ind)) = 1 →
        (year_cols t.columns).countP (fun yc => ((strToNat yc : Int) == y)) = 1 →
        recs.countP (fun r =>
          (r.countryName == cn) && (r.indicatorName == ind) && (r.year == y)) = 1 := by
  constructor
  · rw [load_edstats_ok h, canonRecords_eq, List.length_flatMap]
    calc (List.map (List.length ∘ fun yc => t.rows.map (recordOf t.columns yc))
            (year_cols t.columns)).sum
        = ((year_cols t.columns).map (fun _ => t.rows.length)).sum := by
          simp [Function.comp_def]
      _ = (year_cols t.columns).length * t.rows.length := sum_map_const _ _
      _ = t.rows.length * (year_cols t.columns).length := Nat.mul_comm _ _
  · intro cn ind y hrow hyc
    rw [load_edstats_ok h, canonRecords_eq, List.countP_flatMap]
    rw [sum_map_eq_countP (q := fun yc => ((strToNat yc : Int) == y))
      (fun yc _ hq => ?_) (fun yc _ hq => ?_)]
    · exact hyc
    · have hq' : ((strToNat yc : Int) == y) = false := hq
      rw [Function.comp_apply, List.countP_map, List.countP_eq_zero]
      intro row _
      simp only [Function.comp_apply, recordOf, Bool.and_eq_true]
      rintro ⟨-, hy⟩
      rw [hq'] at hy
      exact Bool.false_ne_true hy
    · have hq' : ((strToNat yc : Int) == y) = true := hq
      rw [Function.comp_apply, List.countP_map, ← hrow]
      refine List.countP_congr (fun row _ => ?_)
      simp only [Function.comp_apply, recordOf, hq', Bool.and_true]

/-- Witness for C3 on `exTable`: 2 rows × 2 year columns = 4 records, and the
(Arab World, Ind A, 1970) triple occurs exactly once. -/
theorem spec_C3_witness :
    (canonRecords exTable).length = exTable.rows.length * (year_cols exTable.columns).length
    ∧ (canonRecords exTable).countP (fun r =>
        (r.countryName == some "Arab World") && (r.indicatorName == some "Ind A")
          && (r.year == (1970 : Int))) = 1 :=
  ⟨(spec_C3_one_record_per_row_and_year exTable (canonRecords exTable) rfl).1,
   (spec_C3_one_record_per_row_and_year exTable (canonRecords exTable) rfl).2
     (some "Arab World") (some "Ind A") 1970 (by decide) (by decide)⟩

/-- **C5.** When at least one of the four required identity columns is absent
from the source, `load_edstats` fails carrying exactly the list of missing
required columns (the `ValueError` message names them), and the top-level
script halts on the error screen before any chart is built. -/
theorem spec_C5_schema_error (t : RawTable) (country indicator : String) (lo hi : Int)
    (brush : Option (Int × Int)) (h : missingRequired t.columns ≠ []) :
    load_edstats t = .error (missingRequired t.columns)
    ∧ run_app t country indicator lo hi brush = .errorScreen (missingRequired t.columns)
    ∧ ∀ c, c ∈ missingRequired t.columns ↔ (c ∈ requiredCols ∧ c ∉ t.columns) := by
  have hload : load_edstats t = .error (missingRequired t.columns) := by
    unfold load_edstats
    cases hm : missingRequired t.columns with
    | nil => exact absurd hm h
    | cons m ms => rfl
  refine ⟨hload, ?_, ?_⟩
  · unfold run_app
    rw [hload]
  · intro c
    unfold missingRequired
    simp [List.mem_filter, List.elem_iff]

/-- Witness for C5: `badTable` lacks `Country Code` and `Indicator Code`, and
the app shows the error screen naming exactly those. -/
theorem spec_C5_witness :
    load_edstats badTable = .error ["Country Code", "Indicator Code"]
    ∧ run_app badTable "Brazil" "Ind A" 1970 2015 none
        = .errorScreen ["Country Code", "Indicator Code"]
    ∧ ("Country Code" ∈ missingRequired badTable.columns
        ↔ ("Country Code" ∈ requiredCols ∧ "Country Code" ∉ badTable.columns)) :=
  ⟨(spec_C5_schema_error badTable "Brazil" "Ind A" 1970 2015 none (by decide)).1,
   (spec_C5_schema_error badTable "Brazil" "Ind A" 1970 2015 none (by decide)).2.1,
   (spec_C5_schema_error badTable "Brazil" "Ind A" 1970 2015 none (by decide)).2.2 "Country Code"⟩

/-- **C6.** The filter step selects exactly the records whose `Country Name`
equals the chosen country, whose `Indicator Name` equals the chosen indicator
(both by exact string equality), and whose `Year` lies inclusively between
`lo` and `hi`; it is a total function (no error path) and the empty result is
a valid output. -/
theorem spec_C6_filter_semantics (tbl : List Record) (country indicator : String)
    (lo hi : Int) :
    (∀ r : Record, r ∈ filterView tbl country indicator lo hi ↔
        (r ∈ tbl ∧ r.countryName = some country ∧ r.indicatorName = some indicator
          ∧ lo ≤ r.year ∧ r.year ≤ hi))
    ∧ filterView ([] : List Record) country indicator lo hi = [] := by
  constructor
  · intro r
    unfold filterView filterPred
    simp [List.mem_filter, and_assoc]
  · rfl

/-- **C7.** Filtering is idempotent: applying the filter to an
already-filtered view with the same (country, indicator, year-range) predicate
returns the identical set of records. -/
theorem spec_C7_filter_idempotent (tbl : List Record) (country indicator : String)
    (lo hi : Int) :
    filterView (filterView tbl country indicator lo hi) country indicator lo hi
      = filterView tbl country indicator lo hi := by
  unfold filterView
  rw [List.filter_filter]
  exact List.filter_congr (fun r _ => Bool.and_self _)

/-- **C8.** Default-selection policy: the default indicator is the first
match, in priority order, of the preferred enrollment indicator names present
in the chosen country's indicator domain; if none is present the selectbox
falls back to index 0, the first entry of the country's sorted indicator
list.  The default country is `"Arab World"` when present, else the first
country in sorted order. -/
theorem spec_C8_default_selection (data : List Record) (country : String) :
    (∀ d, defaultIndicator (indicatorsFor data country) = some d →
        chosenIndicator (indicatorsFor data country) = some d
          ∧ d ∈ preferredIndicators ∧ d ∈ indicatorsFor data country)
    ∧ (defaultIndicator (indicatorsFor data country) = none →
        chosenIndicator (indicatorsFor data country) = (indicatorsFor data country).head?)
    ∧ ((countriesOf data).contains "Arab World" = true →
        defaultCountry data = some "Arab World")
    ∧ ((countriesOf data).contains "Arab World" = false →
        defaultCountry data = (countriesOf data).head?) := by
  refine ⟨fun d hd => ?_, fun hd => ?_, fun h => ?_, fun h => ?_⟩
  · have hmem : d ∈ indicatorsFor data country := by
      have hp := List.find?_some hd
      simpa [List.elem_iff] using hp
    refine ⟨?_, List.mem_of_find?_eq_some hd, hmem⟩
    unfold chosenIndicator indicatorIndex
    rw [hd]
    exact List.indexOf_get? hmem
  · unfold chosenIndicator indicatorIndex
    rw [hd]
    exact List.get?_zero _
  · show (if (countriesOf data).contains "Arab World" = true then some "Arab World"
      else (countriesOf data).head?) = some "Arab World"
    rw [h]
    simp
  · show (if (countriesOf data).contains "Arab World" = true then some "Arab World"
      else (countriesOf data).head?) = (countriesOf data).head?
    rw [h]
    simp

/-- Witness for C8: on `exData`, Arab World's domain contains the first
preferred name, so it is chosen; Brazil's domain contains none, so the first
sorted indicator is chosen; and the default country is `"Arab World"`. -/
theorem spec_C8_witness :
    chosenIndicator (indicatorsFor exData "Arab World")
        = some "School enrollment, primary, female (% gross)"
    ∧ chosenIndicator (indicatorsFor exData "Brazil")
        = (indicatorsFor exData "Brazil").head?
    ∧ defaultCountry exData = some "Arab World" :=
  ⟨((spec_C8_default_selection exData "Arab World").1
      "School enrollment, primary, female (% gross)" (by decide)).1,
   (spec_C8_default_selection exData "Brazil").2.1 (by decide),
   (spec_C8_default_selection exData "Arab World").2.2.1 (by decide)⟩

/-- **C9.** KPI arithmetic: `selectedYears = yearHi - yearLo + 1`,
`missingCount = selectedYears - nonMissing`, and — since the year-range
slider guarantees `yearLo ≤ yearHi` — `selectedYears` is positive, so the
coverage and missing percentages never divide by zero. -/
theorem spec_C9_kpi_arithmetic (lo hi : Int) (df : List Record) (h : lo ≤ hi) :
    total_years lo hi = hi - lo + 1
    ∧ missing_points lo hi df = total_years lo hi - (non_missing df : Int)
    ∧ 0 < total_years lo hi
    ∧ ((total_years lo hi : Int) : Rat) ≠ 0
    ∧ coveragePct lo hi df = ((non_missing df : Rat) / ((total_years lo hi : Int) : Rat)) * 100
    ∧ missingPct lo hi df
        = (((missing_points lo hi df : Int) : Rat) / ((total_years lo hi : Int) : Rat)) * 100 := by
  have hpos : 0 < total_years lo hi := by
    unfold total_years
    omega
  refine ⟨rfl, rfl, hpos, ?_, rfl, rfl⟩
  exact Int.cast_ne_zero.mpr (by omega)

/-- Witness for C9 at the slider's full range. -/
theorem spec_C9_witness :
    0 < total_years 1970 2015 ∧ ((total_years 1970 2015 : Int) : Rat) ≠ 0 :=
  ⟨(spec_C9_kpi_arithmetic 1970 2015 [] (by decide)).2.2.1,
   (spec_C9_kpi_arithmetic 1970 2015 [] (by decide)).2.2.2.1⟩

lemma mem_dedupInts {a : Int} : ∀ {l seen : List Int},
    a ∈ dedupInts seen l ↔ (a ∈ l ∧ a ∉ seen) := by
  intro l
  induction l with
  | nil => simp [dedupInts]
  | cons x xs ih =>
      intro seen
      unfold dedupInts
      by_cases hx : x ∈ seen
      · rw [if_pos (show seen.contains x = true from List.elem_iff.mpr hx), ih]
        constructor
        · rintro ⟨ha, hs⟩
          exact ⟨List.mem_cons_of_mem _ ha, hs⟩
        · rintro ⟨ha, hs⟩
          rcases List.mem_cons.mp ha with rfl | ha'
          · exact absurd hx hs
          · exact ⟨ha', hs⟩
      · rw [if_neg (show ¬ seen.contains x = true from fun hc => hx (List.elem_iff.mp hc))]
        rw [List.mem_cons, ih]
        constructor
        · rintro (rfl | ⟨ha, hs⟩)
          · exact ⟨List.mem_cons_self _ _, hx⟩
          · exact ⟨List.mem_cons_of_mem _ ha, fun hmem => hs (List.mem_cons_of_mem _ hmem)⟩
        · rintro ⟨ha, hs⟩
          rcases List.mem_cons.mp ha with rfl | ha'
          · exact Or.inl rfl
          · by_cases hax : a = x
            · exact Or.inl hax
            · refine Or.inr ⟨ha', fun hmem => ?_⟩
              rcases List.mem_cons.mp hmem with h1 | h2
              · exact hax h1
              · exact hs h2

/-- **C10.** The missing-rate view's bar data (mean of the 0/1 missing
indicator per year) is computed from the full filtered view and is identical
for any two brush states; every year of the filtered view keeps a bar; the
brush only drives the opacity encoding (full inside the interval, dimmed
outside). -/
theorem spec_C10_missing_rate_brush_invariant (df : List Record)
    (b1 b2 : Option (Int × Int)) :
    (missing_rate df b1).data = (missing_rate df b2).data
    ∧ (∀ r ∈ df, ∃ q, (r.year, q) ∈ (missing_rate df b1).data)
    ∧ ∀ lo hi y, (missing_rate df (some (lo, hi))).opacity y
        = if lo ≤ y ∧ y ≤ hi then 1 else 1 / 4 := by
  refine ⟨rfl, fun r hr => ?_, fun lo hi y => rfl⟩
  have hy : r.year ∈ yearsOf df := by
    unfold yearsOf
    rw [mem_dedupInts]
    exact ⟨List.mem_map.mpr ⟨r, hr, rfl⟩, by simp⟩
  exact ⟨_, List.mem_map.mpr ⟨r.year, hy, rfl⟩⟩

/-- Witness for C10: the Arab World 1970 record of `exData` keeps its bar. -/
theorem spec_C10_witness : ∃ q, ((1970 : Int), q) ∈ (missing_rate exData none).data :=
  (spec_C10_missing_rate_brush_invariant exData none (some (2000, 2005))).2.1
    { countryName := some "Arab World", countryCode := some "ARB",
      indicatorName := some "School enrollment, primary, female (% gross)",
      indicatorCode := some "IC1", year := 1970, value := some 10, missing := false }
    (by decide)

end EduDash
